import Mathlib

/-!
Verification development for the retail geodata pipeline
(`DataCleaner`, `DataValidator`, `DataPipelineOrchestrator` in
`src/pipeline`).  Tables are modelled as lists of rows, a row being an
association list from column name to cell; machine floats that only ever
hold exact decimal data are modelled as rationals.
-/

/-- A cell of a table: natively missing (`NaN`/`None`), a string, or a number. -/
inductive Cell where
  | missing : Cell
  | str : String → Cell
  | num : ℚ → Cell
deriving DecidableEq, Repr

/-- A row is an association list from column name to cell value. -/
abbrev Row := List (String × Cell)

/-- A table is an ordered list of rows. -/
abbrev Table := List Row

/-- Cell of column `col` in row `r` (first matching entry; missing if absent). -/
def rowGet : Row → String → Cell
  | [], _ => Cell.missing
  | p :: ps, col => if p.1 = col then p.2 else rowGet ps col

/-- Replace the first entry of column `col` by `v` (no-op if the column is absent). -/
def rowSet : Row → String → Cell → Row
  | [], _, _ => []
  | p :: ps, col, v => if p.1 = col then (p.1, v) :: ps else p :: rowSet ps col v

/-- Whether row `r` has an entry for column `col`. -/
def rowHas : Row → String → Bool
  | [], _ => false
  | p :: ps, col => p.1 = col || rowHas ps col

/-! ### Null normalization (`DataCleaner.clean_null_values`) -/

/-- The `null_variants` literal list of `clean_null_values` (the string entries;
`None` and `np.nan` are the native missing marker `Cell.missing`). -/
def null_variants : List String := ["", "  ", "NULL", "null", "N/A", "n/a", "#N/A", "None"]

/-- A cell counted as a null variant by `clean_null_values`: natively missing,
or a string in the `null_variants` list. -/
def isNullVariant : Cell → Bool
  | Cell.missing => true
  | Cell.str s => null_variants.contains s
  | Cell.num _ => false

/-- The `df[column].replace(null_variants, np.nan)` step for one row. -/
def replaceNullRow (col : String) (r : Row) : Row :=
  rowSet r col (if isNullVariant (rowGet r col) then Cell.missing else rowGet r col)

/-- `clean_null_values(df, column, strategy='remove')`: replace null variants in
`column` by the missing marker, then drop the rows missing in that column. -/
def clean_null_values_remove (t : Table) (col : String) : Table :=
  (t.map (replaceNullRow col)).filter (fun r => !(rowGet r col == Cell.missing))

/-- Modelled from the spec: the null-variant set as the claim words it — the
empty string, any whitespace-only string, or the tokens NULL, null, N/A, n/a,
\x23N/A, None, besides the native missing marker. -/
def isNullVariantClaim : Cell → Bool
  | Cell.missing => true
  | Cell.str s =>
      s.data.all (fun c => c == ' ' || c == '\t' || c == '\n' || c == '\r') ||
      ["NULL", "null", "N/A", "n/a", "#N/A", "None"].contains s
  | Cell.num _ => false

/-! ### Date repair (`DataCleaner.clean_date_formats`) -/

/-- A calendar date (year, month, day). -/
structure Date where
  year : Nat
  month : Nat
  day : Nat
deriving DecidableEq, Repr

/-- Python-style leap year test. -/
def isLeap (y : Nat) : Bool := y % 4 == 0 && (y % 100 != 0 || y % 400 == 0)

/-- Days in a given month of a given year. -/
def daysInMonth (y m : Nat) : Nat :=
  if m = 2 then (if isLeap y then 29 else 28)
  else if m = 4 ∨ m = 6 ∨ m = 9 ∨ m = 11 then 30
  else 31

/-- Split a character list on a separator character (Python `str.split` style). -/
def splitChar (sep : Char) : List Char → List (List Char)
  | [] => [[]]
  | c :: cs =>
    let r := splitChar sep cs
    if c == sep then [] :: r
    else
      match r with
      | [] => [[c]]
      | h :: t => (c :: h) :: t

/-- Decimal value of a digit list. -/
def digitsToNat (l : List Char) : Nat :=
  l.foldl (fun acc c => 10 * acc + (c.toNat - 48)) 0

/-- All characters are decimal digits and the list is non-empty. -/
def allDigits (l : List Char) : Bool := !l.isEmpty && l.all Char.isDigit

/-- A 4-digit year field (strptime `%Y`), with the year at least 1. -/
def parseYear (l : List Char) : Option Nat :=
  if allDigits l && l.length == 4 && digitsToNat l ≥ 1 then some (digitsToNat l) else none

/-- A 1- or 2-digit month field (strptime `%m`), in 1..12. -/
def parseMonth (l : List Char) : Option Nat :=
  if allDigits l && l.length ≤ 2 && 1 ≤ digitsToNat l && digitsToNat l ≤ 12 then
    some (digitsToNat l)
  else none

/-- A 1- or 2-digit day field (strptime `%d`), in 1..31. -/
def parseDay (l : List Char) : Option Nat :=
  if allDigits l && l.length ≤ 2 && 1 ≤ digitsToNat l && digitsToNat l ≤ 31 then
    some (digitsToNat l)
  else none

/-- Component order of a date format pattern. -/
inductive FmtOrder where
  | ymd : FmtOrder
  | dmy : FmtOrder
  | mdy : FmtOrder
deriving DecidableEq, Repr

/-- A date format: separator and component order. -/
structure DateFmt where
  sep : Char
  ord : FmtOrder
deriving DecidableEq, Repr

/-- The `date_formats` list of `clean_date_formats`:
`%Y-%m-%d`, `%d/%m/%Y`, `%m/%d/%Y`, `%d-%m-%Y`, `%Y/%m/%d`. -/
def date_formats : List DateFmt :=
  [⟨'-', FmtOrder.ymd⟩, ⟨'/', FmtOrder.dmy⟩, ⟨'/', FmtOrder.mdy⟩,
   ⟨'-', FmtOrder.dmy⟩, ⟨'/', FmtOrder.ymd⟩]

/-- Build a calendar-valid date from year, month and day fields. -/
def mkValidDate (ys ms ds : List Char) : Option Date :=
  match parseYear ys, parseMonth ms, parseDay ds with
  | some y, some m, some d => if d ≤ daysInMonth y m then some ⟨y, m, d⟩ else none
  | _, _, _ => none

/-- `pd.to_datetime(s, format=fmt)` for one of the five fixed formats:
the whole string must split into exactly three fields under the format's
separator, each field must match its strptime pattern, and the resulting
date must be calendar-valid. -/
def parseWithFormat (fmt : DateFmt) (l : List Char) : Option Date :=
  match splitChar fmt.sep l with
  | [a, b, c] =>
    match fmt.ord with
    | FmtOrder.ymd => mkValidDate a b c
    | FmtOrder.dmy => mkValidDate c b a
    | FmtOrder.mdy => mkValidDate c a b
  | _ => none

/-- First format in `date_formats` order that parses the string. -/
def firstFormatParse (l : List Char) : Option Date :=
  date_formats.findSome? (fun f => parseWithFormat f l)

/-- `needle` occurs as a contiguous substring of `hay` (Python `in`). -/
def containsSub (needle : List Char) : List Char → Bool
  | [] => needle.isPrefixOf []
  | c :: cs => needle.isPrefixOf (c :: cs) || containsSub needle cs

/-- The `invalid_patterns` substring list of `clean_date_formats.parse_date`. -/
def invalid_patterns : List String := ["32/", "13/", "00/00/", "/2023", "31/02/", "30/02/"]

/-- Python `str.strip`: drop leading and trailing whitespace characters. -/
def isPySpace (c : Char) : Bool :=
  c == ' ' || c == '\t' || c == '\n' || c == '\r' || c.toNat == 11 || c.toNat == 12

/-- Strip leading and trailing whitespace from a character list. -/
def stripChars (l : List Char) : List Char :=
  ((l.dropWhile isPySpace).reverse.dropWhile isPySpace).reverse

/-- `parse_date` of `clean_date_formats`.  `fb` is the permissive day-first
parser `pd.to_datetime(s, dayfirst=True)` (an external library collaborator,
taken as a parameter); `none` models a missing input cell and a missing
output. -/
def parse_date (fb : List Char → Option Date) (c : Option String) : Option Date :=
  match c with
  | none => none
  | some s =>
    let t := stripChars s.data
    if t.isEmpty then none
    else if invalid_patterns.any (fun p => containsSub p.data t) then none
    else
      match firstFormatParse t with
      | some d => some d
      | none => fb t

/-! ### Duplicate removal (`DataCleaner.remove_duplicates`) -/

/-- Keep, in row order, the first row seen for each key value
(`df.drop_duplicates(keep='first')`); `seen` accumulates keys already kept. -/
def dedupAux {κ : Type} [DecidableEq κ] (key : Row → κ) (seen : List κ) : Table → Table
  | [] => []
  | r :: rs =>
    if key r ∈ seen then dedupAux key seen rs
    else r :: dedupAux key (key r :: seen) rs

/-- The key a row is deduplicated on: the tuple of cells of the subset columns
when a subset is given, the whole row otherwise. -/
def dupKey (subset : Option (List String)) (r : Row) : List Cell ⊕ Row :=
  match subset with
  | some cols => Sum.inl (cols.map (rowGet r))
  | none => Sum.inr r

/-- `remove_duplicates(df, subset_cols)`: drop duplicates on the subset columns
(or on whole rows when no subset is given), keeping first occurrences. -/
def remove_duplicates (t : Table) (subset : Option (List String)) : Table :=
  dedupAux (dupKey subset) [] t

/-! ### Transaction amount filter (`DataCleaner.clean_transactions_data`, step 2) -/

/-- `df['montant'] < 0` for one cell: pandas comparison, false on missing. -/
def cellLtZero : Cell → Bool
  | Cell.num q => decide (q < 0)
  | _ => false

/-- `df['montant'] >= 0` for one cell: pandas comparison, false on missing. -/
def cellGeZero : Cell → Bool
  | Cell.num q => decide (0 ≤ q)
  | _ => false

/-- The negative-amount step of `clean_transactions_data`: count strictly
negative amounts and, only when this count is positive, keep the rows whose
amount compares `>= 0`. -/
def montant_negative_filter (t : Table) : Table :=
  let negative_count := t.countP (fun r => cellLtZero (rowGet r "montant"))
  if 0 < negative_count then t.filter (fun r => cellGeZero (rowGet r "montant")) else t

/-! ### Expectation validator (`DataValidator`) -/

/-- A pandas column dtype, as far as the validator inspects it. -/
inductive DType where
  | int64 : DType
  | float64 : DType
  | object : DType
deriving DecidableEq, Repr

/-- A dataframe: named, typed columns plus the rows. -/
structure DataFrame where
  cols : List (String × DType)
  rows : List Row
deriving DecidableEq, Repr

/-- Column names of a dataframe. -/
def dfColNames (df : DataFrame) : List String := df.cols.map Prod.fst

/-- Dtype of a column (first declaration wins), if present. -/
def dfDtype (df : DataFrame) : String → Option DType
  | c =>
    match df.cols.find? (fun p => p.1 == c) with
    | some p => some p.2
    | none => none

/-- The cells of one column, in row order. -/
def dfColumn (df : DataFrame) (c : String) : List Cell := df.rows.map (fun r => rowGet r c)

/-- Numeric value of a cell, if any. -/
def cellNum : Cell → Option ℚ
  | Cell.num q => some q
  | _ => none

/-- Non-missing cells of a column (`df[column].dropna()`). -/
def dfDropna (df : DataFrame) (c : String) : List Cell :=
  (dfColumn df c).filter (fun x => !(x == Cell.missing))

/-- One expectation of a suite, a closed variant per `expectation_type`. -/
inductive Expectation where
  | rowCountBetween : Nat → Nat → Expectation
  | columnExists : String → Expectation
  | columnUnique : String → Expectation
  | columnNotNull : String → Expectation
  | columnBetween : String → ℚ → ℚ → Expectation
  | columnOfType : String → DType → Expectation
deriving DecidableEq, Repr

/-- An expectation suite bound to one dataset. -/
structure ExpectationSuite where
  data_asset_name : String
  expectation_suite_name : String
  expectations : List Expectation
deriving DecidableEq, Repr

/-- Outcome of the `expect_column_values_to_be_between` branch of
`validate_basic_expectations`: success flag, counts, and the reported
observed fraction. -/
structure BetweenResult where
  success : Bool
  within_range : Nat
  total_values : Nat
  observed_value : ℚ
deriving DecidableEq, Repr

/-- The `expect_column_values_to_be_between` branch: only when the column
exists with an int64/float64 dtype, compare the non-missing values against
the bounds; the test result otherwise keeps its initial `success = False`. -/
def evalBetween (df : DataFrame) (c : String) (lo hi : ℚ) : BetweenResult :=
  if dfColNames df |>.contains c then
    match dfDtype df c with
    | some DType.int64 | some DType.float64 =>
      let valid_values := (dfColumn df c).filterMap cellNum
      let within_range := valid_values.countP (fun v => decide (lo ≤ v ∧ v ≤ hi))
      let total_values := valid_values.length
      { success := within_range == total_values
        within_range := within_range
        total_values := total_values
        observed_value := if 0 < total_values then (within_range : ℚ) / total_values else 0 }
    | _ => ⟨false, 0, 0, 0⟩
  else ⟨false, 0, 0, 0⟩

/-- Success flag of one expectation (`test_result['success']` after the
dispatch in `validate_basic_expectations`; branches whose guard fails leave
the initial `False` in place). -/
def evalExpectation (df : DataFrame) : Expectation → Bool
  | Expectation.rowCountBetween lo hi => lo ≤ df.rows.length && df.rows.length ≤ hi
  | Expectation.columnExists c => dfColNames df |>.contains c
  | Expectation.columnUnique c =>
    if dfColNames df |>.contains c then
      let unique_count := (dfDropna df c).dedup.length
      let total_count := (dfDropna df c).length
      unique_count == total_count
    else false
  | Expectation.columnNotNull c =>
    if dfColNames df |>.contains c then
      ((dfColumn df c).countP (fun x => x == Cell.missing)) == 0
    else false
  | Expectation.columnBetween c lo hi => (evalBetween df c lo hi).success
  | Expectation.columnOfType c ty =>
    if dfColNames df |>.contains c then dfDtype df c == some ty else false

/-- The per-suite statistics of `validate_basic_expectations`. -/
structure SuiteStats where
  total_tests : Nat
  passed_tests : Nat
  failed_tests : Nat
  success_rate : ℚ
deriving DecidableEq, Repr

/-- The result record of `validate_basic_expectations`. -/
structure SuiteOutput where
  dataset : String
  suite_name : String
  success : Bool
  results : List Bool
  statistics : SuiteStats
deriving DecidableEq, Repr

/-- `validate_basic_expectations(df, expectations)`: evaluate every
expectation of the suite, count passes, and compute the statistics. -/
def validate_basic_expectations (df : DataFrame) (suite : ExpectationSuite) : SuiteOutput :=
  let total_tests := suite.expectations.length
  let passed_tests := suite.expectations.countP (fun e => evalExpectation df e)
  { dataset := suite.data_asset_name
    suite_name := suite.expectation_suite_name
    success := passed_tests == total_tests
    results := suite.expectations.map (fun e => evalExpectation df e)
    statistics :=
      { total_tests := total_tests
        passed_tests := passed_tests
        failed_tests := total_tests - passed_tests
        success_rate :=
          if 0 < total_tests then (passed_tests : ℚ) / total_tests * 100 else 0 } }

/-- `create_magasins_expectations`: the fixed stores suite. -/
def magasins_expectations : ExpectationSuite :=
  { data_asset_name := "magasins_staging"
    expectation_suite_name := "magasins_suite"
    expectations :=
      [Expectation.rowCountBetween 40 60,
       Expectation.columnExists "id_magasin",
       Expectation.columnUnique "id_magasin",
       Expectation.columnNotNull "ville",
       Expectation.columnBetween "latitude" 41 51,
       Expectation.columnBetween "longitude" (-5) 10,
       Expectation.columnOfType "ca_annuel" DType.float64,
       Expectation.columnBetween "ca_annuel" 100000 10000000] }

/-- `create_transactions_expectations`: the fixed transactions suite. -/
def transactions_expectations : ExpectationSuite :=
  { data_asset_name := "transactions_staging"
    expectation_suite_name := "transactions_suite"
    expectations :=
      [Expectation.rowCountBetween 4000 6000,
       Expectation.columnUnique "transaction_id",
       Expectation.columnNotNull "date",
       Expectation.columnBetween "montant" 0 1000,
       Expectation.columnNotNull "magasin_id",
       Expectation.columnNotNull "categorie"] }

/-- The staging area as the validator sees it: which staged tables exist
(`magasins_staging.csv`, `concurrents_staging.csv`, `transactions_staging.csv`)
and their contents. -/
structure StagingData where
  magasins : Option DataFrame
  concurrents : Option DataFrame
  transactions : Option DataFrame
deriving DecidableEq, Repr

/-- The `summary` record of `validate_all_data`. -/
structure Summary where
  datasets_validated : Nat
  total_tests : Nat
  passed_tests : Nat
  overall_success_rate : ℚ
  overall_success : Bool
deriving DecidableEq, Repr

/-- The full result of `validate_all_data`: per-dataset outputs keyed by
dataset name, plus the summary (present only when at least one dataset was
validated). -/
structure AllValidation where
  results : List (String × SuiteOutput)
  summary : Option Summary
deriving DecidableEq, Repr

/-- `validate_all_data`: validate the magasins staging table against the
magasins suite and the transactions staging table against the transactions
suite, when the corresponding staged file exists, then aggregate the counts.
The concurrents staging table is never read by this function. -/
def validate_all_data (st : StagingData) : AllValidation :=
  let rs : List (String × SuiteOutput) :=
    (match st.magasins with
     | some df => [("magasins", validate_basic_expectations df magasins_expectations)]
     | none => []) ++
    (match st.transactions with
     | some df => [("transactions", validate_basic_expectations df transactions_expectations)]
     | none => [])
  match rs with
  | [] => { results := [], summary := none }
  | _ =>
    let total_tests := (rs.map (fun r => r.2.statistics.total_tests)).sum
    let passed_tests := (rs.map (fun r => r.2.statistics.passed_tests)).sum
    { results := rs
      summary := some
        { datasets_validated := rs.length
          total_tests := total_tests
          passed_tests := passed_tests
          overall_success_rate :=
            if 0 < total_tests then (passed_tests : ℚ) / total_tests * 100 else 0
          overall_success := passed_tests == total_tests } }

/-! ### Orchestrator (`DataPipelineOrchestrator`) -/

/-- The gate of `run_data_validation`: when the summary's `overall_success`
(default `False`) is false, compute `failed_rate = 100 - overall_success_rate`
(rate default 0) and raise when it exceeds 20. -/
def validation_gate (v : AllValidation) : Option String :=
  let overall := (v.summary.map Summary.overall_success).getD false
  if overall then none
  else
    let rate := (v.summary.map Summary.overall_success_rate).getD 0
    let failed_rate := 100 - rate
    if 20 < failed_rate then some "Too many validation failures" else none

/-- `run_data_validation`: run the validator over the staged tables and apply
the 20 percent failure gate, raising `ValueError` past it. -/
def run_data_validation (st : StagingData) : Except String AllValidation :=
  let v := validate_all_data st
  match validation_gate v with
  | some e => Except.error e
  | none => Except.ok v

/-- Per-dataset cleaning statistics (`DataCleaner.cleaning_stats` entries). -/
structure CleaningStats where
  initial_count : Nat
  final_count : Nat
  removed_count : Nat
  cleaning_rate : ℚ
deriving DecidableEq, Repr

/-- The cleaner's run-scoped statistics map. -/
abbrev CleaningStatsMap := List (String × CleaningStats)

/-- `self.pipeline_stats` as accumulated across the orchestrator stages. -/
structure PipelineStats where
  cleaning : Option CleaningStatsMap
  validation : Option Summary
  execution_time_seconds : Option ℚ
deriving DecidableEq, Repr

/-- The environment of one `run_full_pipeline` call: the outcomes of the
external effects each stage performs (file checks, the dirty-data generator,
the cleaner's file I/O, reading the staged tables, writing the processed and
live outputs, writing the report), plus the configuration flags. -/
structure PipelineEnv where
  rawAvailable : Bool
  regen : Except String Unit
  regenerated : Bool
  cleaning : Except String CleaningStatsMap
  skipValidation : Bool
  stagingLoad : Except String StagingData
  prepare : Except String Unit
  updateMl : Except String Unit
  report : Except String Unit
  execTime : ℚ

/-- The structured result `run_full_pipeline` returns to its caller. -/
structure RunResult where
  success : Bool
  execution_time : ℚ
  error : Option String
  stats : PipelineStats
deriving DecidableEq, Repr

/-- Step 1 of `run_full_pipeline`: check the raw files; if missing, run the
dirty-data generator once and re-check, raising `FileNotFoundError` when the
files are still missing. -/
def rawStageError (env : PipelineEnv) : Option String :=
  if env.rawAvailable then none
  else
    match env.regen with
    | Except.error e => some e
    | Except.ok _ =>
      if env.regenerated then none
      else some "Could not generate or find raw data files"

/-- A failure result carrying the stats accumulated so far. -/
def failResult (env : PipelineEnv) (stats : PipelineStats) (msg : String) : RunResult :=
  { success := false, execution_time := env.execTime, error := some msg, stats := stats }

/-- Steps 4 to 6 of `run_full_pipeline`: prepare processed data, update the
ML/dashboard data, record the execution time, and generate the report. -/
def runPromotionStages (env : PipelineEnv) (stats : PipelineStats) : RunResult :=
  match env.prepare with
  | Except.error e => failResult env stats e
  | Except.ok _ =>
    match env.updateMl with
    | Except.error e => failResult env stats e
    | Except.ok _ =>
      let stats3 := { stats with execution_time_seconds := some env.execTime }
      match env.report with
      | Except.error e => failResult env stats3 e
      | Except.ok _ =>
        { success := true, execution_time := env.execTime, error := none, stats := stats3 }

/-- `run_full_pipeline`: the whole staged sequence inside the orchestrator's
`try`, with every raised exception converted by the outer `except` into the
structured failure result. -/
def run_full_pipeline (env : PipelineEnv) : RunResult :=
  let stats0 : PipelineStats := { cleaning := none, validation := none,
                                  execution_time_seconds := none }
  match rawStageError env with
  | some e => failResult env stats0 e
  | none =>
    match env.cleaning with
    | Except.error e => failResult env stats0 e
    | Except.ok cstats =>
      let stats1 := { stats0 with cleaning := some cstats }
      if env.skipValidation then runPromotionStages env stats1
      else
        match env.stagingLoad with
        | Except.error e => failResult env stats1 e
        | Except.ok st =>
          let v := validate_all_data st
          let stats2 := { stats1 with validation := v.summary }
          match validation_gate v with
          | some e => failResult env stats2 e
          | none => runPromotionStages env stats2

/-- The message of the first failing promotion-or-report stage, if any. -/
def promotionFailure (env : PipelineEnv) : Option String :=
  match env.prepare with
  | Except.error e => some e
  | Except.ok _ =>
    match env.updateMl with
    | Except.error e => some e
    | Except.ok _ =>
      match env.report with
      | Except.error e => some e
      | Except.ok _ => none

/-- The message of the first stage that fails in `env`, in stage order, if any. -/
def firstFailure (env : PipelineEnv) : Option String :=
  (rawStageError env).orElse fun _ =>
  match env.cleaning with
  | Except.error e => some e
  | Except.ok _ =>
    (if env.skipValidation then none
     else
       match env.stagingLoad with
       | Except.error e => some e
       | Except.ok st => validation_gate (validate_all_data st)).orElse fun _ =>
    promotionFailure env

/-! ### Promotion file writes (`prepare_processed_data`,
`update_ml_and_dashboard_data`) -/

/-- The file system as the promotion stages touch it: paths mapped to an
abstract content identifier. -/
abbrev FS := List (String × Nat)

/-- Content at a path (`os.path.exists` plus read). -/
def fsGet (fs : FS) (p : String) : Option Nat :=
  match fs.find? (fun q => q.1 == p) with
  | some q => some q.2
  | none => none

/-- `os.path.exists`. -/
def fsExists (fs : FS) (p : String) : Bool := (fsGet fs p).isSome

/-- Write content `c` at path `p`, replacing any previous file there
(`df.to_csv(path)` / `open(path, 'w')`). -/
def fsWrite (fs : FS) (p : String) (c : Nat) : FS :=
  fs.filter (fun q => !(q.1 == p)) ++ [(p, c)]

/-- `os.rename(src, dst)` (all call sites guard on `src` existing). -/
def fsRename (fs : FS) (src dst : String) : FS :=
  match fsGet fs src with
  | some c => fsWrite (fs.filter (fun q => !(q.1 == src))) dst c
  | none => fs

/-- The staging-to-processed file name mapping of `prepare_processed_data`. -/
def staging_files : List (String × String) :=
  [("magasins_staging.csv", "magasins_performance.csv"),
   ("concurrents_staging.csv", "sites_concurrents.csv"),
   ("transactions_staging.csv", "transactions.csv")]

/-- `prepare_processed_data`: for each staged file that exists, read it and
write it to the processed location, then write the metadata record
(`md` is the metadata content). -/
def prepare_processed_data (md : Nat) (fs : FS) : FS :=
  let fs1 := staging_files.foldl
    (fun acc pr =>
      match fsGet acc ("data/staging/" ++ pr.1) with
      | some c => fsWrite acc ("data/processed/" ++ pr.2) c
      | none => acc)
    fs
  fsWrite fs1 "data/processed/metadata.json" md

/-- Fuel-driven replacement of every occurrence of `pat` (non-empty) by `rep`. -/
def replaceAllAux (pat rep : List Char) : Nat → List Char → List Char
  | _, [] => []
  | 0, l => l
  | fuel + 1, c :: cs =>
    if pat.isPrefixOf (c :: cs) then
      rep ++ replaceAllAux pat rep fuel (List.drop (pat.length - 1) cs)
    else c :: replaceAllAux pat rep fuel cs

/-- Python `str.replace`: replace every occurrence of `pat` by `rep`. -/
def replaceAll (pat rep l : List Char) : List Char :=
  replaceAllAux pat rep l.length l

/-- `main_path.replace('.csv', '_backup_<timestamp>.csv')`. -/
def backupName (p ts : String) : String :=
  ⟨replaceAll ".csv".data ("_backup_" ++ ts ++ ".csv").data p.data⟩

/-- The files `update_ml_and_dashboard_data` copies to the live location. -/
def processed_files : List String := ["magasins_performance.csv", "sites_concurrents.csv"]

/-- One iteration of the `update_ml_and_dashboard_data` loop: if the processed
file exists, back up the pre-existing live file by renaming it with the
timestamp suffix, then write the new live file. -/
def updateOneLive (ts : String) (fs : FS) (f : String) : FS :=
  let processed_path := "data/processed/" ++ f
  let main_path := "data/" ++ f
  match fsGet fs processed_path with
  | none => fs
  | some c =>
    let fs2 := if fsExists fs main_path then fsRename fs main_path (backupName main_path ts)
               else fs
    fsWrite fs2 main_path c

/-- `update_ml_and_dashboard_data` (with `ts` the run timestamp). -/
def update_ml_and_dashboard_data (ts : String) (fs : FS) : FS :=
  processed_files.foldl (updateOneLive ts) fs

/-- The four paths `prepare_processed_data` writes. -/
def processedTargets : List String :=
  ["data/processed/magasins_performance.csv", "data/processed/sites_concurrents.csv",
   "data/processed/transactions.csv", "data/processed/metadata.json"]

/-! ## Supporting lemmas -/

theorem rowSet_get_self (r : Row) (col : String) : rowSet r col (rowGet r col) = r := by
  induction r with
  | nil => rfl
  | cons p ps ih =>
    by_cases h : p.1 = col
    · obtain ⟨p1, p2⟩ := p
      simp_all [rowSet, rowGet]
    · simp only [rowSet, rowGet, if_neg h]
      rw [ih]

theorem rowGet_rowSet (r : Row) (col : String) (v : Cell) :
    rowGet (rowSet r col v) col = if rowHas r col then v else Cell.missing := by
  induction r with
  | nil => simp [rowSet, rowGet, rowHas]
  | cons p ps ih =>
    by_cases h : p.1 = col
    · simp [rowSet, rowGet, rowHas, h]
    · simp only [rowSet, rowGet, rowHas, if_neg h, ih]
      simp [h]

theorem replaceNullRow_not_variant (col : String) (r : Row)
    (h : isNullVariant (rowGet r col) = false) : replaceNullRow col r = r := by
  unfold replaceNullRow
  rw [if_neg (by simp [h]), rowSet_get_self]

theorem replaceNullRow_variant_missing (col : String) (r : Row)
    (h : isNullVariant (rowGet r col) = true) :
    rowGet (replaceNullRow col r) col = Cell.missing := by
  unfold replaceNullRow
  rw [if_pos (by simp [h]), rowGet_rowSet, ite_self]

/-- C6 (amended): under the `remove` strategy, null normalization keeps
exactly the rows whose cell in the target column is neither natively missing
nor one of the exact literals of `null_variants` (the empty string, the
two-space string, NULL, null, N/A, n/a, \x23N/A, None); every such variant row
is dropped and no other row is. -/
theorem C6_null_variant_remove (t : Table) (col : String) (r : Row) :
    r ∈ clean_null_values_remove t col ↔ r ∈ t ∧ isNullVariant (rowGet r col) = false := by
  unfold clean_null_values_remove
  constructor
  · intro h
    obtain ⟨hm, hcell⟩ := List.mem_filter.mp h
    obtain ⟨r0, hr0, heq⟩ := List.mem_map.mp hm
    by_cases hv : isNullVariant (rowGet r0 col) = true
    · exfalso
      have : rowGet r col = Cell.missing := by
        rw [← heq]; exact replaceNullRow_variant_missing col r0 hv
      simp [this] at hcell
    · have hv' : isNullVariant (rowGet r0 col) = false := by
        simpa using hv
      have : replaceNullRow col r0 = r0 := replaceNullRow_not_variant col r0 hv'
      rw [this] at heq
      subst heq
      exact ⟨hr0, hv'⟩
  · rintro ⟨hr, hv⟩
    refine List.mem_filter.mpr ⟨List.mem_map.mpr ⟨r, hr, replaceNullRow_not_variant col r hv⟩, ?_⟩
    have : rowGet r col ≠ Cell.missing := by
      intro hc
      rw [hc] at hv
      simp [isNullVariant] at hv
    simp [this]

/-- C6 counterexample: a cell holding a single space is whitespace-only, hence
a null variant per the claim, yet the `remove` strategy keeps its row (the
code's literal list has only the empty and the two-space strings). -/
theorem C6_single_space_not_dropped_cx :
    isNullVariantClaim (Cell.str " ") = true ∧
    clean_null_values_remove [[("ville", Cell.str " ")]] "ville" =
      [[("ville", Cell.str " ")]] := by decide

theorem dedupAux_idem {κ : Type} [DecidableEq κ] (key : Row → κ) (t : Table) :
    ∀ seen : List κ, dedupAux key seen (dedupAux key seen t) = dedupAux key seen t := by
  induction t with
  | nil => intro seen; rfl
  | cons r rs ih =>
    intro seen
    by_cases h : key r ∈ seen
    · simp only [dedupAux, if_pos h]
      exact ih seen
    · simp only [dedupAux, if_neg h]
      rw [ih (key r :: seen)]

theorem dedupAux_sublist {κ : Type} [DecidableEq κ] (key : Row → κ) (t : Table) :
    ∀ seen : List κ, List.Sublist (dedupAux key seen t) t := by
  induction t with
  | nil => intro seen; simp [dedupAux]
  | cons r rs ih =>
    intro seen
    by_cases h : key r ∈ seen
    · simp only [dedupAux, if_pos h]
      exact (ih seen).cons r
    · simp only [dedupAux, if_neg h]
      exact (ih (key r :: seen)).cons₂ r

theorem dedupAux_first_mem {κ : Type} [DecidableEq κ] (key : Row → κ) (t : Table) :
    ∀ (seen : List κ) (r : Row), r ∈ t → key r ∉ seen →
      ∃ r0, t.find? (fun x => decide (key x = key r)) = some r0 ∧
        r0 ∈ dedupAux key seen t := by
  induction t with
  | nil =>
    intro seen r hr
    exact absurd hr (List.not_mem_nil r)
  | cons a rs ih =>
    intro seen r hr hseen
    by_cases hk : key a = key r
    · refine ⟨a, ?_, ?_⟩
      · simp [List.find?, hk]
      · have ha : key a ∉ seen := hk ▸ hseen
        simp only [dedupAux, if_neg ha]
        exact List.mem_cons_self a _
    · have hfind : (a :: rs).find? (fun x => decide (key x = key r)) =
          rs.find? (fun x => decide (key x = key r)) := by
        simp [List.find?, hk]
      have hrrs : r ∈ rs := by
        rcases List.mem_cons.mp hr with h | h
        · exact absurd (by rw [h]) hk
        · exact h
      by_cases hseenA : key a ∈ seen
      · obtain ⟨r0, h1, h2⟩ := ih seen r hrrs hseen
        refine ⟨r0, by rw [hfind]; exact h1, ?_⟩
        simp only [dedupAux, if_pos hseenA]
        exact h2
      · have hseen' : key r ∉ key a :: seen := by
          intro hc
          rcases List.mem_cons.mp hc with h | h
          · exact hk h.symm
          · exact hseen h
        obtain ⟨r0, h1, h2⟩ := ih (key a :: seen) r hrrs hseen'
        refine ⟨r0, by rw [hfind]; exact h1, ?_⟩
        simp only [dedupAux, if_neg hseenA]
        exact List.mem_cons_of_mem a h2

/-- C7: duplicate removal (for any column subset, or whole rows when none)
is idempotent, returns a subsequence of the input, and keeps the first
occurrence in row order of each duplicate group. -/
theorem C7_remove_duplicates_first_idempotent (t : Table) (subset : Option (List String)) :
    remove_duplicates (remove_duplicates t subset) subset = remove_duplicates t subset ∧
    List.Sublist (remove_duplicates t subset) t ∧
    ∀ r ∈ t, ∃ r0, t.find? (fun x => decide (dupKey subset x = dupKey subset r)) = some r0 ∧
      r0 ∈ remove_duplicates t subset := by
  refine ⟨dedupAux_idem _ t [], dedupAux_sublist _ t [], ?_⟩
  intro r hr
  exact dedupAux_first_mem _ t [] r hr (List.not_mem_nil _)

/-- C9 (amended): the negative-amount step filters only when at least one
strictly negative amount is present; in that case it keeps exactly the rows
whose amount is a non-missing value `>= 0` (missing amounts are dropped with
the negatives), otherwise it leaves the table unchanged; in every case no
negative amount survives the step. -/
theorem C9_negative_filter_characterization (t : Table) :
    montant_negative_filter t =
      (if t.any (fun r => cellLtZero (rowGet r "montant")) then
        t.filter (fun r => cellGeZero (rowGet r "montant"))
      else t) ∧
    ∀ r ∈ montant_negative_filter t, cellLtZero (rowGet r "montant") = false := by
  have hcount : (0 < t.countP (fun r => cellLtZero (rowGet r "montant"))) ↔
      t.any (fun r => cellLtZero (rowGet r "montant")) = true := by
    rw [List.countP_pos_iff, List.any_eq_true]
  constructor
  · unfold montant_negative_filter
    by_cases h : t.any (fun r => cellLtZero (rowGet r "montant")) = true
    · rw [if_pos (hcount.mpr h), if_pos h]
    · rw [if_neg (fun hc => h (hcount.mp hc)), if_neg h]
  · intro r hr
    unfold montant_negative_filter at hr
    by_cases h : 0 < t.countP (fun r => cellLtZero (rowGet r "montant"))
    · rw [if_pos h] at hr
      have hge := (List.mem_filter.mp hr).2
      cases hc : rowGet r "montant" with
      | missing => simp [cellLtZero]
      | str s => simp [cellLtZero]
      | num q =>
        rw [hc] at hge
        simp only [cellGeZero, decide_eq_true_eq] at hge
        simp only [cellLtZero, decide_eq_false_iff_not]
        linarith
    · rw [if_neg h] at hr
      have hz : t.countP (fun r => cellLtZero (rowGet r "montant")) = 0 := by omega
      have := List.countP_eq_zero.mp hz r hr
      simpa using this

/-- C9 counterexample: a table whose single row has a missing amount and no
negative amount at all is returned unchanged — the missing-amount row is not
dropped, contradicting the claim that the step keeps exactly the non-missing
amounts `>= 0`. -/
theorem C9_missing_amount_kept_cx :
    montant_negative_filter [[("montant", Cell.missing)]] = [[("montant", Cell.missing)]] ∧
    List.filter (fun r => cellGeZero (rowGet r "montant")) [[("montant", Cell.missing)]] = [] := by
  decide

/-- Modelled from the spec: the claim's enumeration of the known-invalid date
literals — a day-of-month 32, 13 used in the month position, 00/00, and the
impossible February 30 or 31. -/
def claimInvalidLiteral (l : List Char) : Bool :=
  List.isPrefixOf "32/".data l ||
  (match splitChar '/' l with
   | [_, m, _] => m == "13".data
   | _ => false) ||
  containsSub "00/00".data l ||
  List.isPrefixOf "31/02/".data l ||
  List.isPrefixOf "30/02/".data l

/-- C5 counterexample: the cell `15/06/2023` matches none of the claim's
known-invalid literals and parses under the listed format `DD/MM/YYYY`
(and under no earlier format), so the claim requires the parsed date
2023-06-15; the code instead maps it to missing, because the raw substring
check on `/2023` fires first. -/
theorem C5_valid_2023_date_rejected_cx :
    claimInvalidLiteral "15/06/2023".data = false ∧
    firstFormatParse "15/06/2023".data = some ⟨2023, 6, 15⟩ ∧
    parse_date (fun _ => none) (some "15/06/2023") = none := by decide

/-- The amended C5 claim's date repair, stated from its words: missing for a
missing or (after stripping) empty cell; missing for any string containing one
of the raw substrings `32/`, `13/`, `00/00/`, `/2023`, `31/02/`, `30/02/`
anywhere; otherwise the first of the five listed formats that parses wins;
otherwise the permissive day-first parse; and missing only if that also
fails. -/
def parse_date_amended_spec (fb : List Char → Option Date) (c : Option String) : Option Date :=
  match c with
  | none => none
  | some s =>
    let t := stripChars s.data
    if t.isEmpty then none
    else if containsSub "32/".data t || containsSub "13/".data t ||
            containsSub "00/00/".data t || containsSub "/2023".data t ||
            containsSub "31/02/".data t || containsSub "30/02/".data t then none
    else
      match date_formats.findSome? (fun f => parseWithFormat f t) with
      | some d => some d
      | none => fb t

/-- C5 (amended): for every cell, date repair computes exactly the amended
claim's case split — missing for missing/empty, missing on any of the six raw
invalid substrings, otherwise first-success over the ordered format list, then
the permissive day-first fallback, then missing. -/
theorem C5_parse_date_characterization (fb : List Char → Option Date) (c : Option String) :
    parse_date fb c = parse_date_amended_spec fb c := by
  cases c with
  | none => rfl
  | some s =>
    simp only [parse_date, parse_date_amended_spec, firstFormatParse, invalid_patterns,
      List.any_cons, List.any_nil, Bool.or_false, Bool.or_assoc]

/-- C8: for every table and non-empty suite, the statistics of
`validate_basic_expectations` satisfy passed + failed = total, total is the
number of specs, the rate equals passed over total times 100 and lies in
[0, 100], and the suite success flag holds exactly when every test passed. -/
theorem C8_suite_statistics (df : DataFrame) (suite : ExpectationSuite)
    (h : suite.expectations ≠ []) :
    (validate_basic_expectations df suite).statistics.passed_tests +
        (validate_basic_expectations df suite).statistics.failed_tests =
      (validate_basic_expectations df suite).statistics.total_tests ∧
    (validate_basic_expectations df suite).statistics.total_tests =
      suite.expectations.length ∧
    (validate_basic_expectations df suite).statistics.success_rate =
      ((validate_basic_expectations df suite).statistics.passed_tests : ℚ) /
        (validate_basic_expectations df suite).statistics.total_tests * 100 ∧
    0 ≤ (validate_basic_expectations df suite).statistics.success_rate ∧
    (validate_basic_expectations df suite).statistics.success_rate ≤ 100 ∧
    ((validate_basic_expectations df suite).success = true ↔
      (validate_basic_expectations df suite).statistics.passed_tests =
        (validate_basic_expectations df suite).statistics.total_tests) := by
  have hple : suite.expectations.countP (fun e => evalExpectation df e) ≤
      suite.expectations.length := List.countP_le_length _
  have hlen : 0 < suite.expectations.length := List.length_pos.mpr h
  have hlq : (0 : ℚ) < suite.expectations.length := by exact_mod_cast hlen
  simp only [validate_basic_expectations]
  refine ⟨by omega, by simp, ?_, ?_, ?_, ?_⟩
  · rw [if_pos hlen]
  · rw [if_pos hlen]
    positivity
  · rw [if_pos hlen]
    rw [div_mul_eq_mul_div, div_le_iff hlq]
    have : (suite.expectations.countP (fun e => evalExpectation df e) : ℚ) ≤
        (suite.expectations.length : ℚ) := by exact_mod_cast hple
    nlinarith
  · simp [beq_iff_eq]

/-- C8 witness: the statistics invariants instantiated at the empty table and
the fixed transactions suite. -/
theorem C8_suite_statistics_witness :
    (validate_basic_expectations (DataFrame.mk [] []) transactions_expectations).statistics.passed_tests +
        (validate_basic_expectations (DataFrame.mk [] []) transactions_expectations).statistics.failed_tests =
      (validate_basic_expectations (DataFrame.mk [] []) transactions_expectations).statistics.total_tests ∧
    (validate_basic_expectations (DataFrame.mk [] []) transactions_expectations).statistics.total_tests =
      transactions_expectations.expectations.length ∧
    (validate_basic_expectations (DataFrame.mk [] []) transactions_expectations).statistics.success_rate =
      ((validate_basic_expectations (DataFrame.mk [] []) transactions_expectations).statistics.passed_tests : ℚ) /
        (validate_basic_expectations (DataFrame.mk [] []) transactions_expectations).statistics.total_tests * 100 ∧
    0 ≤ (validate_basic_expectations (DataFrame.mk [] []) transactions_expectations).statistics.success_rate ∧
    (validate_basic_expectations (DataFrame.mk [] []) transactions_expectations).statistics.success_rate ≤ 100 ∧
    ((validate_basic_expectations (DataFrame.mk [] []) transactions_expectations).success = true ↔
      (validate_basic_expectations (DataFrame.mk [] []) transactions_expectations).statistics.passed_tests =
        (validate_basic_expectations (DataFrame.mk [] []) transactions_expectations).statistics.total_tests) :=
  C8_suite_statistics (DataFrame.mk [] []) transactions_expectations
    (by simp [transactions_expectations])

/-- C10: the value-range expectation evaluates only the non-missing values,
so on a numeric column with no non-missing value at all it passes vacuously,
reporting zero values within range out of zero tested and an observed
fraction of 0. -/
theorem C10_between_vacuous (df : DataFrame) (c : String) (lo hi : ℚ)
    (h1 : (dfColNames df).contains c = true)
    (h2 : dfDtype df c = some DType.float64 ∨ dfDtype df c = some DType.int64)
    (h3 : ∀ r ∈ df.rows, rowGet r c = Cell.missing) :
    evalBetween df c lo hi = ⟨true, 0, 0, 0⟩ ∧
    evalExpectation df (Expectation.columnBetween c lo hi) = true := by
  have hvals : (dfColumn df c).filterMap cellNum = [] := by
    rw [List.filterMap_eq_nil]
    intro a ha
    obtain ⟨r, hr, rfl⟩ := List.mem_map.mp ha
    rw [h3 r hr]
    rfl
  have h1' : c ∈ dfColNames df := by simpa using h1
  have hval : evalBetween df c lo hi = ⟨true, 0, 0, 0⟩ := by
    unfold evalBetween
    rcases h2 with h2 | h2 <;>
      simp [h1', h2, hvals]
  exact ⟨hval, by simp [evalExpectation, hval]⟩

/-- C10 witness: a one-row float64 column whose only cell is missing. -/
theorem C10_between_vacuous_witness :
    evalBetween (DataFrame.mk [("m", DType.float64)] [[("m", Cell.missing)]]) "m" 0 100 =
      ⟨true, 0, 0, 0⟩ ∧
    evalExpectation (DataFrame.mk [("m", DType.float64)] [[("m", Cell.missing)]])
      (Expectation.columnBetween "m" 0 100) = true :=
  C10_between_vacuous (DataFrame.mk [("m", DType.float64)] [[("m", Cell.missing)]]) "m" 0 100
    (by decide) (Or.inl (by decide)) (by decide)

/-- C3 counterexample: a run in which all three datasets were cleaned (all
three staged tables exist), yet the validator's per-dataset results name only
magasins and transactions — no competitors suite is ever evaluated. -/
theorem C3_concurrents_not_validated_cx :
    (validate_all_data
      ⟨some ⟨[("a", DType.object)], [[("a", Cell.str "x")]]⟩,
       some ⟨[("b", DType.object)], [[("b", Cell.str "y")]]⟩,
       some ⟨[("c", DType.object)], [[("c", Cell.str "z")]]⟩⟩).results.map Prod.fst =
      ["magasins", "transactions"] := by decide

/-- C3 (amended): when both staged tables that the validator reads exist,
exactly the stores and transactions datasets are validated against their
fixed suites and contribute their passed and total counts to the summary;
the competitors dataset is never consulted (the output does not depend on
it) and contributes nothing. -/
theorem C3_only_magasins_transactions_validated (dfm dft : DataFrame)
    (oc : Option DataFrame) :
    (validate_all_data ⟨some dfm, oc, some dft⟩).results =
      [("magasins", validate_basic_expectations dfm magasins_expectations),
       ("transactions", validate_basic_expectations dft transactions_expectations)] ∧
    validate_all_data ⟨some dfm, oc, some dft⟩ =
      validate_all_data ⟨some dfm, none, some dft⟩ ∧
    ∃ s, (validate_all_data ⟨some dfm, oc, some dft⟩).summary = some s ∧
      s.total_tests =
        (validate_basic_expectations dfm magasins_expectations).statistics.total_tests +
          (validate_basic_expectations dft transactions_expectations).statistics.total_tests ∧
      s.passed_tests =
        (validate_basic_expectations dfm magasins_expectations).statistics.passed_tests +
          (validate_basic_expectations dft transactions_expectations).statistics.passed_tests := by
  refine ⟨rfl, rfl, _, rfl, ?_, ?_⟩ <;> simp [validate_all_data]

/-- Discriminator for the gate result: did `run_data_validation` return
normally rather than raise. -/
def exceptIsOk {ε α : Type} : Except ε α → Bool
  | Except.ok _ => true
  | Except.error _ => false

theorem run_data_validation_ok_iff (st : StagingData) :
    exceptIsOk (run_data_validation st) = true ↔
      validation_gate (validate_all_data st) = none := by
  unfold run_data_validation
  cases h : validation_gate (validate_all_data st) <;> simp [exceptIsOk, h]

theorem validation_gate_none_iff (v : AllValidation) (s : Summary) (hs : v.summary = some s)
    (p t : Nat) (ht : 0 < t) (hp : p ≤ t)
    (hsucc : s.overall_success = (p == t))
    (hrate : s.overall_success_rate = (p : ℚ) / t * 100) :
    validation_gate v = none ↔ 80 ≤ s.overall_success_rate := by
  have htq : (0 : ℚ) < t := by exact_mod_cast ht
  unfold validation_gate
  rw [hs]
  simp only [Option.map_some', Option.getD_some]
  rw [hsucc]
  simp only [hrate]
  by_cases hpt : p = t
  · subst hpt
    have h100 : (p : ℚ) / p * 100 = 100 := by
      field_simp
    rw [h100]
    simp
    norm_num
  · have hne : (p == t) = false := by simp [hpt]
    rw [hne]
    simp only [Bool.false_eq_true, if_false]
    constructor
    · intro h
      by_contra hlt
      push_neg at hlt
      rw [if_pos (by linarith)] at h
      exact Option.some_ne_none _ h
    · intro h
      rw [if_neg (by linarith)]

/-- C2: with validation enabled and at least one staged table to validate,
the gate of `run_data_validation` raises exactly when the aggregated overall
success rate is strictly below 80 percent; at 80 percent or above (even when
below 100) the stage returns normally, so partial failure is tolerated. -/
theorem C2_validation_gate_iff (st : StagingData)
    (h : st.magasins.isSome = true ∨ st.transactions.isSome = true) :
    ∃ s, (validate_all_data st).summary = some s ∧
      (exceptIsOk (run_data_validation st) = true ↔ 80 ≤ s.overall_success_rate) := by
  obtain ⟨m, oc, tr⟩ := st
  rcases m with _ | dfm <;> rcases tr with _ | dft
  · simp at h
  · refine ⟨_, rfl, ?_⟩
    rw [run_data_validation_ok_iff]
    refine validation_gate_none_iff _ _ rfl
      (List.countP (fun e => evalExpectation dft e) transactions_expectations.expectations) 6
      (by norm_num) ?_ ?_ ?_
    · have h2 : List.countP (fun e => evalExpectation dft e)
          transactions_expectations.expectations ≤
          transactions_expectations.expectations.length := List.countP_le_length _
      have hl2 : transactions_expectations.expectations.length = 6 := rfl
      omega
    · rfl
    · rfl
  · refine ⟨_, rfl, ?_⟩
    rw [run_data_validation_ok_iff]
    refine validation_gate_none_iff _ _ rfl
      (List.countP (fun e => evalExpectation dfm e) magasins_expectations.expectations) 8
      (by norm_num) ?_ ?_ ?_
    · have h1 : List.countP (fun e => evalExpectation dfm e)
          magasins_expectations.expectations ≤
          magasins_expectations.expectations.length := List.countP_le_length _
      have hl1 : magasins_expectations.expectations.length = 8 := rfl
      omega
    · rfl
    · rfl
  · refine ⟨_, rfl, ?_⟩
    rw [run_data_validation_ok_iff]
    refine validation_gate_none_iff _ _ rfl
      (List.countP (fun e => evalExpectation dfm e) magasins_expectations.expectations +
        List.countP (fun e => evalExpectation dft e) transactions_expectations.expectations) 14
      (by norm_num) ?_ ?_ ?_
    · have h1 : List.countP (fun e => evalExpectation dfm e)
          magasins_expectations.expectations ≤
          magasins_expectations.expectations.length := List.countP_le_length _
      have h2 : List.countP (fun e => evalExpectation dft e)
          transactions_expectations.expectations ≤
          transactions_expectations.expectations.length := List.countP_le_length _
      have hl1 : magasins_expectations.expectations.length = 8 := rfl
      have hl2 : transactions_expectations.expectations.length = 6 := rfl
      omega
    · rfl
    · rfl

/-- C2 witness: one staged transactions table present (so the validated suite
is non-empty), with the gate equivalence instantiated there. -/
theorem C2_validation_gate_iff_witness :
    ∃ s, (validate_all_data ⟨none, none, some (DataFrame.mk [] [])⟩).summary = some s ∧
      (exceptIsOk (run_data_validation ⟨none, none, some (DataFrame.mk [] [])⟩) = true ↔
        80 ≤ s.overall_success_rate) :=
  C2_validation_gate_iff ⟨none, none, some (DataFrame.mk [] [])⟩ (Or.inr (by decide))

theorem runPromotionStages_props (env : PipelineEnv) (stats : PipelineStats) :
    (runPromotionStages env stats).execution_time = env.execTime ∧
    (runPromotionStages env stats).error = promotionFailure env ∧
    (((runPromotionStages env stats).success = true ∧
        (runPromotionStages env stats).error = none) ∨
      ((runPromotionStages env stats).success = false ∧
        ∃ msg, (runPromotionStages env stats).error = some msg)) := by
  unfold runPromotionStages promotionFailure
  cases hp : env.prepare with
  | error e => simp [failResult]
  | ok u =>
    cases hu : env.updateMl with
    | error e => simp [failResult]
    | ok u2 =>
      cases hr : env.report with
      | error e => simp [failResult]
      | ok u3 => simp

/-- C1: `run_full_pipeline` always returns the structured result: the
execution time is reported in every case, a successful run carries no error,
a failed run carries an error message, and the reported error is exactly the
message of the first failing stage. -/
theorem C1_structured_result (env : PipelineEnv) :
    (run_full_pipeline env).execution_time = env.execTime ∧
    (run_full_pipeline env).error = firstFailure env ∧
    (((run_full_pipeline env).success = true ∧ (run_full_pipeline env).error = none) ∨
      ((run_full_pipeline env).success = false ∧
        ∃ msg, (run_full_pipeline env).error = some msg)) := by
  unfold run_full_pipeline firstFailure
  cases hraw : rawStageError env with
  | some e => simp [failResult, Option.orElse]
  | none =>
    cases hcl : env.cleaning with
    | error e => simp [failResult, Option.orElse]
    | ok cstats =>
      by_cases hskip : env.skipValidation
      · obtain ⟨h1, h2, h3⟩ := runPromotionStages_props env
          { cleaning := some cstats, validation := none, execution_time_seconds := none }
        simp only [Option.orElse, hskip, if_true]
        exact ⟨h1, h2, h3⟩
      · simp only [Option.orElse, hskip, if_false, Bool.false_eq_true]
        cases hst : env.stagingLoad with
        | error e => simp [failResult]
        | ok st =>
          cases hg : validation_gate (validate_all_data st) with
          | some e => simp [failResult, hg]
          | none =>
            obtain ⟨h1, h2, h3⟩ := runPromotionStages_props env
              { cleaning := some cstats, validation := (validate_all_data st).summary,
                execution_time_seconds := none }
            simp only [hg, Option.orElse]
            exact ⟨h1, h2, h3⟩

theorem find?_filter_ne_append (fs : FS) (p : String) (tail : FS) :
    (fs.filter (fun q => !(q.1 == p)) ++ tail).find? (fun q => q.1 == p) =
      tail.find? (fun q => q.1 == p) := by
  induction fs with
  | nil => rfl
  | cons q qs ih =>
    by_cases h : q.1 = p
    · simp only [List.filter_cons]
      rw [if_neg (by simp [h])]
      exact ih
    · simp only [List.filter_cons]
      rw [if_pos (by simp [h])]
      simp only [List.cons_append]
      rw [List.find?_cons_of_neg _ (by simp [h])]
      exact ih

theorem fsGet_fsWrite_self (fs : FS) (p : String) (c : Nat) :
    fsGet (fsWrite fs p c) p = some c := by
  unfold fsGet fsWrite
  rw [find?_filter_ne_append]
  simp [List.find?]

theorem find?_key_filter_write (fs : FS) (p p' : String) (c : Nat) (h : p' ≠ p) :
    (fs.filter (fun q => !(q.1 == p)) ++ [(p, c)]).find? (fun q => q.1 == p') =
      fs.find? (fun q => q.1 == p') := by
  induction fs with
  | nil =>
    simp only [List.filter_nil, List.nil_append]
    rw [List.find?_cons_of_neg _ (by simp [Ne.symm h])]
  | cons q qs ih =>
    by_cases hq : q.1 = p
    · simp only [List.filter_cons]
      rw [if_neg (by simp [hq])]
      rw [ih]
      rw [List.find?_cons_of_neg _ (by simp [hq, Ne.symm h])]
    · simp only [List.filter_cons]
      rw [if_pos (by simp [hq])]
      simp only [List.cons_append]
      by_cases hq' : q.1 = p'
      · rw [List.find?_cons_of_pos _ (by simp [hq']), List.find?_cons_of_pos _ (by simp [hq'])]
      · rw [List.find?_cons_of_neg _ (by simp [hq']), List.find?_cons_of_neg _ (by simp [hq'])]
        exact ih

theorem fsGet_fsWrite_ne (fs : FS) (p p' : String) (c : Nat) (h : p' ≠ p) :
    fsGet (fsWrite fs p c) p' = fsGet fs p' := by
  unfold fsGet fsWrite
  rw [find?_key_filter_write fs p p' c h]

theorem fsExists_fsWrite_cases (fs : FS) (p p' : String) (c : Nat)
    (h : fsExists (fsWrite fs p c) p' = true) : fsExists fs p' = true ∨ p' = p := by
  by_cases hp : p' = p
  · exact Or.inr hp
  · left
    unfold fsExists at *
    rw [fsGet_fsWrite_ne fs p p' c hp] at h
    exact h

/-- C4 counterexample: a pre-existing processed table (content 2) is replaced
by the staged content (content 1) during `prepare_processed_data` with no
backup file created anywhere — the resulting file system holds only the
staged file, the overwritten processed file, and the metadata record. -/
theorem C4_processed_overwrite_no_backup_cx :
    prepare_processed_data 0
      [("data/staging/magasins_staging.csv", 1),
       ("data/processed/magasins_performance.csv", 2)] =
      [("data/staging/magasins_staging.csv", 1),
       ("data/processed/magasins_performance.csv", 1),
       ("data/processed/metadata.json", 0)] := by decide

/-- C4 (amended): the promotion steps back up only the downstream live files:
`prepare_processed_data` writes nothing but its four fixed output paths (so a
pre-existing processed file is overwritten with no backup), while each
`update_ml_and_dashboard_data` iteration renames the pre-existing live file
to its timestamped backup name before writing the new content. -/
theorem C4_backup_discipline :
    (∀ (md : Nat) (fs : FS) (p : String),
        fsExists (prepare_processed_data md fs) p = true →
        fsExists fs p = true ∨ p ∈ processedTargets) ∧
    (∀ (ts f : String) (fs : FS) (c d : Nat),
        fsGet fs ("data/processed/" ++ f) = some c →
        fsGet fs ("data/" ++ f) = some d →
        backupName ("data/" ++ f) ts ≠ "data/" ++ f →
        fsGet (updateOneLive ts fs f) (backupName ("data/" ++ f) ts) = some d ∧
        fsGet (updateOneLive ts fs f) ("data/" ++ f) = some c) := by
  constructor
  · intro md fs p hp
    have step : ∀ (g : FS) (sp tp : String),
        fsExists (match fsGet g sp with
                  | some c => fsWrite g tp c
                  | none => g) p = true →
        fsExists g p = true ∨ p = tp := by
      intro g sp tp hh
      cases hc : fsGet g sp with
      | none => rw [hc] at hh; exact Or.inl hh
      | some c => rw [hc] at hh; exact fsExists_fsWrite_cases g tp p c hh
    simp only [prepare_processed_data, staging_files, List.foldl] at hp
    rcases fsExists_fsWrite_cases _ _ _ _ hp with h1 | h1
    · rcases step _ _ _ h1 with h2 | h2
      · rcases step _ _ _ h2 with h3 | h3
        · rcases step _ _ _ h3 with h4 | h4
          · exact Or.inl h4
          · exact Or.inr (by rw [h4]; simp [processedTargets])
        · exact Or.inr (by rw [h3]; simp [processedTargets])
      · exact Or.inr (by rw [h2]; simp [processedTargets])
    · exact Or.inr (by rw [h1]; simp [processedTargets])
  · intro ts f fs c d hp hm hne
    have hex : fsExists fs ("data/" ++ f) = true := by
      unfold fsExists
      rw [hm]
      rfl
    have hren : fsGet (fsRename fs ("data/" ++ f) (backupName ("data/" ++ f) ts))
        (backupName ("data/" ++ f) ts) = some d := by
      unfold fsRename
      rw [hm]
      exact fsGet_fsWrite_self _ _ _
    simp only [updateOneLive]
    rw [hp, if_pos hex]
    refine ⟨?_, fsGet_fsWrite_self _ _ _⟩
    rw [fsGet_fsWrite_ne _ _ _ _ hne]
    exact hren

/-- C4 witness: a concrete file system where the live magasins file exists and
is first backed up, and where the metadata path of the prepare step is indeed
one of the four fixed outputs. -/
theorem C4_backup_discipline_witness :
    (fsExists [("x", 1)] "data/processed/metadata.json" = true ∨
      "data/processed/metadata.json" ∈ processedTargets) ∧
    (fsGet (updateOneLive "20240101"
        [("data/processed/magasins_performance.csv", 5),
         ("data/magasins_performance.csv", 7)] "magasins_performance.csv")
        (backupName "data/magasins_performance.csv" "20240101") = some 7 ∧
      fsGet (updateOneLive "20240101"
        [("data/processed/magasins_performance.csv", 5),
         ("data/magasins_performance.csv", 7)] "magasins_performance.csv")
        "data/magasins_performance.csv" = some 5) :=
  ⟨C4_backup_discipline.1 0 [("x", 1)] "data/processed/metadata.json" (by decide),
   C4_backup_discipline.2 "20240101" "magasins_performance.csv"
     [("data/processed/magasins_performance.csv", 5), ("data/magasins_performance.csv", 7)]
     5 7 (by decide) (by decide) (by decide)⟩
